import Mathlib

/-!
Verification development for the insight-meds-hub backend.

This file shallowly embeds the cache-aside Redis store
(`app/services/redis_service.py`), the source collector and streaming job
orchestrator (`app/services/multi_agent_intelligence.py`), the tiered AI
model service (`app/services/ai_models.py`), and the drug-analysis and
health-analysis HTTP endpoints (`app/api/endpoints/drug_analysis.py`,
`app/api/endpoints/health_analysis.py`, `app/api/endpoints/cache.py`).

Conventions of the embedding:
- JSON-serializable Python data is modelled by `JVal`.  The Redis store keeps
  the JSON value whose `json.dumps` serialization the real store would hold
  (`json.dumps`/`json.loads` round-trip on these values, and `json.dumps`
  never produces a falsy string, so the `if cached_data:` test in
  `get_cache` is truth for every stored entry).
- Wall-clock instants and `datetime` values are modelled as integer seconds;
  `datetime.isoformat`/`fromisoformat` pairs become `JVal.num` timestamps,
  and a non-numeric timestamp value models an unparsable isoformat string.
- Python exceptions become the `PyExc` type; an `Except PyExc` value models
  an awaited call that either returned or raised.  A Lean function returning
  a plain (non-`Except`) value models Python code that cannot raise because
  every exception is caught inside it.
- `asyncio` suspension is invisible to the properties considered here, so
  awaited calls are modelled by their outcome values, passed in explicitly.
-/

namespace InsightMeds

/-- Python exceptions, split the way `redis_service._retry_operation` splits
them: `redis.ConnectionError` is retried, everything else propagates. -/
inductive PyExc where
  | connectionError (msg : String)
  | otherError (msg : String)
deriving DecidableEq, Repr

/-- Rendering of an exception by Python's `str(e)`. -/
def PyExc.msg : PyExc → String
  | .connectionError m => m
  | .otherError m => m

/-- JSON-serializable Python value (the payload space of the cache). -/
inductive JVal where
  | null
  | bool (b : Bool)
  | num (n : Int)
  | str (s : String)
  | arr (xs : List JVal)
  | obj (fields : List (String × JVal))

/-- Python `dict.get(key)` on an object value: the first binding of the key,
`none` when the key is absent or the value is not a dict. -/
def JVal.get (v : JVal) (key : String) : Option JVal :=
  match v with
  | .obj fields => (fields.find? (fun p => p.1 == key)).map (·.2)
  | _ => none

/-- Python truthiness of a JSON value (`bool(v)`). -/
def JVal.truthy : JVal → Bool
  | .null => false
  | .bool b => b
  | .num n => n != 0
  | .str s => s != ""
  | .arr xs => !xs.isEmpty
  | .obj fields => !fields.isEmpty

/-- Result of `json.loads` as seen by a Python caller: a parsed JSON `null`
is the same object as "no result" (`None`), so it collapses to `none`. -/
def pyOptional : JVal → Option JVal
  | .null => none
  | v => some v

/-! ### Python string primitives

Core `String` operations are re-implemented over `List Char` so that they
reduce inside the kernel; each models the Python method named in its
doc comment (for the ASCII inputs this code base uses). -/

/-- ASCII lower-casing of one character, as `str.lower` does per character. -/
def pyLowerChar (c : Char) : Char :=
  if 'A' ≤ c ∧ c ≤ 'Z' then Char.ofNat (c.toNat + 32) else c

/-- Python `s.lower()`. -/
def pyLower (s : String) : String := ⟨s.data.map pyLowerChar⟩

/-- Python `s.replace(old, new)` for a one-character pattern and
replacement (the only shape this code base uses, e.g. `replace(" ", "_")`). -/
def pyReplaceChar (old new : Char) (s : String) : String :=
  ⟨s.data.map (fun c => if c = old then new else c)⟩

/-- Python `s.strip()`: drop leading and trailing whitespace. -/
def pyStrip (s : String) : String :=
  ⟨((s.data.dropWhile Char.isWhitespace).reverse.dropWhile Char.isWhitespace).reverse⟩

/-- Python `sep.join(parts)`. -/
def pyJoin (sep : String) : List String → String
  | [] => ""
  | [x] => x
  | x :: y :: rest => x ++ sep ++ pyJoin sep (y :: rest)

/-- Code-point comparison underlying Python string `<=`. -/
def strLeAux : List Char → List Char → Bool
  | [], _ => true
  | _ :: _, [] => false
  | a :: as, b :: bs =>
    if a.toNat < b.toNat then true
    else if a.toNat = b.toNat then strLeAux as bs
    else false

/-- Python string `a <= b` (lexicographic by code point). -/
def strLe (a b : String) : Bool := strLeAux a.data b.data

/-- The order relation used to model Python `sorted` on strings. -/
def strLeR (a b : String) : Prop := strLe a b = true

instance : DecidableRel strLeR := fun a b => by unfold strLeR; infer_instance

/-- Python `sorted(strings)`: a stable sort; on strings the result list is
the unique `strLeR`-sorted permutation of the input. -/
def pySorted (l : List String) : List String := l.insertionSort strLeR

/-! ### Cache TTL configuration (`app/core/config.py`) -/

def CACHE_TTL_USER_SESSION : Nat := 3600
def CACHE_TTL_SYMPTOM_INPUT : Nat := 1800
def CACHE_TTL_AI_SUMMARY : Nat := 7200
def CACHE_TTL_DRUG_ANALYSIS : Nat := 86400
def CACHE_TTL_OCR_RESULTS : Nat := 3600
def CACHE_TTL_FDA_VALIDATION : Nat := 86400
def CACHE_TTL_MEDICATION_INFO : Nat := 604800
def CACHE_TTL_SESSION_STATE : Nat := 1800
def CACHE_TTL_USER_PREFERENCES : Nat := 604800
def CACHE_TTL_ANALYSIS_PROGRESS : Nat := 300

/-! ### Redis store and `RedisService` (`app/services/redis_service.py`) -/

/-- State of the remote Redis keyspace: each entry is a key, the JSON value
whose serialization is stored, and the absolute expiry instant in seconds
(`written_at + ttl`, enforced by the store on reads; `none` for a key with
no TTL, such as a counter created by `INCR`). -/
structure RedisStore where
  entries : List (String × JVal × Option Nat)

/-- Redis `GET` at instant `now`: an entry is readable strictly before its
expiry instant and gone from then on (the same `none` covers "never existed"
and "expired"). -/
def RedisStore.get (st : RedisStore) (key : String) (now : Nat) : Option JVal :=
  match st.entries.find? (fun e => e.1 == key) with
  | none => none
  | some (_, v, expiry) =>
    match expiry with
    | none => some v
    | some t => if now < t then some v else none

/-- Redis `SETEX key ttl value` at instant `now`. -/
def RedisStore.setex (st : RedisStore) (key : String) (ttl : Nat) (v : JVal)
    (now : Nat) : RedisStore :=
  ⟨(key, v, some (now + ttl)) :: st.entries.filter (fun e => e.1 ≠ key)⟩

/-- Expiry recorded for `key`, for a live (non-expired) entry. -/
def RedisStore.liveExpiry (st : RedisStore) (key : String) (now : Nat) :
    Option Nat :=
  match st.entries.find? (fun e => e.1 == key) with
  | none => none
  | some (_, _, expiry) =>
    match expiry with
    | none => none
    | some t => if now < t then some t else none

/-- Redis `INCRBY key amount` at instant `now`: a missing (or expired) key is
created holding `amount` with no expiry; an existing integer is bumped and
keeps its TTL; an existing non-integer value raises. -/
def RedisStore.incr (st : RedisStore) (key : String) (amount : Int)
    (now : Nat) : Except PyExc (Int × RedisStore) :=
  match st.get key now with
  | none =>
    .ok (amount, ⟨(key, .num amount, none) :: st.entries.filter (fun e => e.1 ≠ key)⟩)
  | some (.num n) =>
    .ok (n + amount,
      ⟨(key, .num (n + amount), st.liveExpiry key now) ::
        st.entries.filter (fun e => e.1 ≠ key)⟩)
  | some _ => .error (.otherError "value is not an integer or out of range")

/-- Observable state of the `RedisService` connection: `unavailable` models
`self.redis_client is None` (initial connect failed), `broken e` models a
client on which every call raises `e` for the whole scenario (a forcibly
broken connection that `_initialize_connection` cannot repair), and `live`
a working client over the given keyspace. -/
inductive RedisClient where
  | unavailable
  | broken (e : PyExc)
  | live (st : RedisStore)

/-- Inner loop of `_retry_operation(operation, max_retries=3)`: run the
attempt-indexed operation; a `redis.ConnectionError` is retried (after
backoff and reconnection) until the last attempt re-raises it, any other
exception propagates at once. -/
def retryFrom {α : Type} (runOp : Nat → Except PyExc α) :
    Nat → Nat → Except PyExc α
  | _, 0 => .error (.otherError "no attempts")
  | attempt, remaining + 1 =>
    match runOp attempt with
    | .ok a => .ok a
    | .error e =>
      match e, remaining with
      | .connectionError _, 0 => .error e
      | .connectionError _, _ + 1 => retryFrom runOp (attempt + 1) remaining
      | .otherError _, _ => .error e

/-- Model of `RedisService._retry_operation` with its default of three
attempts. -/
def retryOperation {α : Type} (runOp : Nat → Except PyExc α) : Except PyExc α :=
  retryFrom runOp 0 3

/-- Model of `RedisService._get_key`: keys follow
`medinsight:[category]:[identifier]:[sub_key]`, the sub key appended only
when truthy (Python `if sub_key:`). -/
def getKey (category identifier : String) (sub_key : Option String) : String :=
  match sub_key with
  | some sk =>
    if sk = "" then "medinsight:" ++ category ++ ":" ++ identifier
    else "medinsight:" ++ category ++ ":" ++ identifier ++ ":" ++ sk
  | none => "medinsight:" ++ category ++ ":" ++ identifier

/-- Model of `RedisService.set_cache`: `False` without touching the store
when the client is missing; on a raising client the retried `setex` call
ends in an exception which the outer handler turns into `False`; on a live
client the serialized payload is written with the given TTL and `setex`'s
`True` is returned. -/
def set_cache (c : RedisClient) (category identifier : String) (data : JVal)
    (ttl : Nat) (sub_key : Option String) (now : Nat) : Bool × RedisClient :=
  match c with
  | .unavailable => (false, c)
  | .broken e =>
    match retryOperation (fun _ => (.error e : Except PyExc Bool)) with
    | .ok b => (b, c)
    | .error _ => (false, c)
  | .live st =>
    let key := getKey category identifier sub_key
    (true, .live (st.setex key ttl data now))

/-- Model of `RedisService.get_cache`: `None` without touching the store when
the client is missing; on a raising client the retried `get` ends in an
exception which the outer handler turns into `None`; on a live client a
present entry is deserialized (`json.loads`, so a stored JSON `null` comes
back as Python `None`) and a missing or expired key gives `None`. -/
def get_cache (c : RedisClient) (category identifier : String)
    (sub_key : Option String) (now : Nat) : Option JVal × RedisClient :=
  match c with
  | .unavailable => (none, c)
  | .broken e =>
    match retryOperation (fun _ => (.error e : Except PyExc (Option JVal))) with
    | .ok v => (v, c)
    | .error _ => (none, c)
  | .live st =>
    match st.get (getKey category identifier sub_key) now with
    | none => (none, c)
    | some v => (pyOptional v, c)

/-- Model of `RedisService.increment_counter`: `0` when the client is missing
or the retried `incr` call ends in an exception; the incremented value on a
live client. -/
def increment_counter (c : RedisClient) (category identifier : String)
    (sub_key : Option String) (amount : Int) (now : Nat) : Int × RedisClient :=
  match c with
  | .unavailable => (0, c)
  | .broken e =>
    match retryOperation (fun _ => (.error e : Except PyExc Int)) with
    | .ok n => (n, c)
    | .error _ => (0, c)
  | .live st =>
    match st.incr (getKey category identifier sub_key) amount now with
    | .ok (n, st1) => (n, .live st1)
    | .error _ => (0, .live st)

/-- Normalization shared by `cache_drug_analysis`/`get_drug_analysis` (and
the FDA/medication helpers): `drug_name.lower().replace(" ", "_")`. -/
def normalizeDrugName (s : String) : String := pyReplaceChar ' ' '_' (pyLower s)

/-- Model of `RedisService.cache_drug_analysis`. -/
def cache_drug_analysis (c : RedisClient) (drug_name : String) (analysis : JVal)
    (now : Nat) : Bool × RedisClient :=
  set_cache c "drug_analysis" (normalizeDrugName drug_name) analysis
    CACHE_TTL_DRUG_ANALYSIS none now

/-- Model of `RedisService.get_drug_analysis`. -/
def get_drug_analysis (c : RedisClient) (drug_name : String) (now : Nat) :
    Option JVal × RedisClient :=
  get_cache c "drug_analysis" (normalizeDrugName drug_name) none now

/-- Model of `RedisService.cache_user_session`. -/
def cache_user_session (c : RedisClient) (user_id : String) (session_data : JVal)
    (now : Nat) : Bool × RedisClient :=
  set_cache c "user" user_id session_data CACHE_TTL_USER_SESSION (some "session") now

/-! ### Source collector (`ResearcherAgent`, `multi_agent_intelligence.py`) -/

/-- The `raw_data` aggregate built by `ResearcherAgent.scrape_drug_data` from
the five gathered fetches: one slot per source. -/
structure RawDrugData where
  fda_data : JVal
  pubmed_data : JVal
  clinical_trials : JVal
  market_data : JVal
  competitor_data : JVal

/-- Outcomes of the five source-fetch coroutines passed to `asyncio.gather`
for one subject: each either returned a value or raised. -/
structure SourceFetchOutcomes where
  fda : Except PyExc JVal
  pubmed : Except PyExc JVal
  clinical : Except PyExc JVal
  market : Except PyExc JVal
  competitor : Except PyExc JVal

/-- Slot assembly of `scrape_drug_data` after
`asyncio.gather(*tasks, return_exceptions=True)`: an exception in a source's
result degrades that slot to its empty default (`{}` for `fda_data`,
`pubmed_data` and `market_data`, `[]` for `clinical_trials` and
`competitor_data`); `gather` with `return_exceptions=True` itself never
raises and never cancels sibling fetches. -/
def gatherRawData (o : SourceFetchOutcomes) : RawDrugData where
  fda_data := match o.fda with | .ok v => v | .error _ => .obj []
  pubmed_data := match o.pubmed with | .ok v => v | .error _ => .obj []
  clinical_trials := match o.clinical with | .ok v => v | .error _ => .arr []
  market_data := match o.market with | .ok v => v | .error _ => .obj []
  competitor_data := match o.competitor with | .ok v => v | .error _ => .arr []

/-- The `enhanced_data` dict (`{**raw_data, "ai_insights": ..., ...}`): the
five raw slots are always carried through unchanged; the AI fields are
present exactly when the enhancement succeeded. -/
structure EnhancedDrugData where
  raw : RawDrugData
  ai_insights : Option String

/-- Model of `ResearcherAgent._enhance_research_data`: the whole body is one
`try` that returns `raw_data` augmented with the AI response on success and
falls back to the bare `raw_data` when anything in it raises. -/
def enhanceResearchData (raw : RawDrugData) (aiOutcome : Except PyExc String) :
    EnhancedDrugData :=
  match aiOutcome with
  | .ok resp => { raw := raw, ai_insights := some resp }
  | .error _ => { raw := raw, ai_insights := none }

/-- Model of `ResearcherAgent.scrape_drug_data` (the Source Collector's
`Collect`): concurrent fan-out over the five sources, per-call isolation via
`return_exceptions=True`, then best-effort AI enhancement; total, because
every failure path inside is caught. -/
def scrape_drug_data (o : SourceFetchOutcomes) (aiOutcome : Except PyExc String) :
    EnhancedDrugData :=
  enhanceResearchData (gatherRawData o) aiOutcome

/-! ### Tiered AI model service (`app/services/ai_models.py`) -/

/-- Outcomes of the three Bedrock `invoke_model` exchanges (including
response parsing) for one prompt, one per tier. -/
structure BedrockOutcomes where
  claude : Except PyExc String
  novaPremier : Except PyExc String
  novaMicro : Except PyExc String

/-- The fixed report returned by `_generate_fallback_analysis`; it is a
constant (the `prompt` argument is not interpolated into it). -/
def fallbackAnalysisText : String :=
  "\n        # Drug Analysis Report\n\n        ## Executive Summary\n        Analysis request processed for the specified pharmaceutical compound. Due to current system configuration,\n        this report provides structured placeholder analysis that would be enhanced with AI model integration.\n\n        ## Market Intelligence\n        - Market research data collection and analysis framework established\n        - Competitive landscape assessment methodology implemented\n        - Clinical trial tracking and regulatory monitoring systems active\n\n        ## Key Findings\n        - Comprehensive data collection from FDA, PubMed, and ClinicalTrials.gov completed\n        - Market intelligence gathering using Bright Data platform initiated\n        - Multi-source data integration and analysis pipeline operational\n\n        ## Recommendations\n        - Configure AI model access (OpenAI GPT-4 or Google Gemini) for enhanced analysis\n        - Integrate Bright Data API credentials for real-time market intelligence\n        - Establish automated monitoring for regulatory updates and clinical trial progress\n\n        ## Next Steps\n        1. Complete AI model configuration for detailed analysis\n        2. Activate real-time data collection workflows\n        3. Implement automated reporting and alert systems\n\n        *Note: This analysis framework is ready for enhanced AI-driven insights upon model configuration.*\n        "

/-- Model of `_generate_nova_micro_analysis`: the Nova Micro response, or the
fallback report when the call raises. -/
def generateNovaMicroAnalysis (o : BedrockOutcomes) : String :=
  match o.novaMicro with
  | .ok s => s
  | .error _ => fallbackAnalysisText

/-- Model of `_generate_nova_premier_analysis`: the Nova Premier response, or
the Nova Micro tier when the call raises. -/
def generateNovaPremierAnalysis (o : BedrockOutcomes) : String :=
  match o.novaPremier with
  | .ok s => s
  | .error _ => generateNovaMicroAnalysis o

/-- Model of `_generate_claude_analysis`: the Claude response, or the Nova
Premier tier when the call raises. -/
def generateClaudeAnalysis (o : BedrockOutcomes) : String :=
  match o.claude with
  | .ok s => s
  | .error _ => generateNovaPremierAnalysis o

/-- Model of `AIModelService.generate_analysis`: the fallback report when no
Bedrock client was configured, otherwise dispatch by preference/complexity
into the tier chains; total, because every tier catches its own failure. -/
def generate_analysis (clientAvailable : Bool) (o : BedrockOutcomes)
    (modelPreference complexity : String) : String :=
  if !clientAvailable then fallbackAnalysisText
  else if modelPreference = "claude" || complexity = "high" then
    generateClaudeAnalysis o
  else if modelPreference = "nova_premier" || complexity = "medium" then
    generateNovaPremierAnalysis o
  else if modelPreference = "nova_micro" || complexity = "low" then
    generateNovaMicroAnalysis o
  else
    generateNovaPremierAnalysis o

/-! ### Streaming workflow (`MultiAgentDrugIntelligence`) -/

/-- One server-sent progress update yielded by
`run_drug_intelligence_workflow`. -/
structure ProgressEvent where
  analysis_id : String
  status : String
  progress : Nat
  current_step : String
  message : String
  results : Option JVal
  executive_summary : Option String

/-- Outcomes of the three awaited pipeline stages of
`run_drug_intelligence_workflow` for one run: research
(`researcher.scrape_drug_data`), analysis
(`analyst.analyze_market_intelligence`, whose result dict is opaque here),
and report generation (`writer.generate_executive_summary`). -/
structure WorkflowEnv where
  research : Except PyExc EnhancedDrugData
  analysis : Except PyExc JVal
  summary : Except PyExc String

/-- The `DrugAnalysisResult` composed at step 4 of the workflow.  Only the
fields inspected by the claims are spelled out; the remaining metadata
fields of the Pydantic model carry no weight in any stated property.  (Both
the rich and the minimal fallback construction yield a value, so the
composition never escapes the workflow's `try`.) -/
def mkFinalResult (drug_name analysis_id : String) (research : EnhancedDrugData)
    (analysisResults : JVal) : JVal :=
  .obj
    [ ("drug_name", .str drug_name)
    , ("analysis_type", .str "market_research")
    , ("analysis_id", .str analysis_id)
    , ("swot_analysis", (analysisResults.get "swot_analysis").getD .null)
    , ("ai_insights",
        match research.ai_insights with
        | some s => .str s
        | none => .null) ]

/-- The terminal event emitted by the workflow's `except` handler. -/
def failedEvent (analysis_id : String) (e : PyExc) : ProgressEvent where
  analysis_id := analysis_id
  status := "failed"
  progress := 0
  current_step := "Analysis failed"
  message := "Error during analysis: " ++ e.msg
  results := none
  executive_summary := none

/-- Model of `run_drug_intelligence_workflow`: the full ordered sequence of
events the async generator yields for one run, on the fixed stage schedule
10 → 40 → 70 → 100; an uncaught stage failure ends the sequence with the
`failed` terminal event instead.  (The generator also tracks the run in the
service-local `self.active_analyses` dict; that dict is never read by any
endpoint and is omitted.  The generator performs no cache access.) -/
def runWorkflowEvents (drug_name analysis_id : String) (env : WorkflowEnv) :
    List ProgressEvent :=
  let e1 : ProgressEvent :=
    { analysis_id := analysis_id, status := "in_progress", progress := 10
    , current_step := "Collecting drug data from multiple sources"
    , message := "Starting comprehensive research for " ++ drug_name
    , results := none, executive_summary := none }
  match env.research with
  | .error e => [e1, failedEvent analysis_id e]
  | .ok research_data =>
    let e2 : ProgressEvent :=
      { analysis_id := analysis_id, status := "in_progress", progress := 40
      , current_step := "Analyzing market intelligence data"
      , message := "Research data collected, beginning analysis"
      , results := none, executive_summary := none }
    match env.analysis with
    | .error e => [e1, e2, failedEvent analysis_id e]
    | .ok analysis_results =>
      let e3 : ProgressEvent :=
        { analysis_id := analysis_id, status := "in_progress", progress := 70
        , current_step := "Generating comprehensive report"
        , message := "Market analysis complete, generating executive summary"
        , results := none, executive_summary := none }
      match env.summary with
      | .error e => [e1, e2, e3, failedEvent analysis_id e]
      | .ok executive_summary =>
        [e1, e2, e3,
          { analysis_id := analysis_id, status := "completed", progress := 100
          , current_step := "Analysis complete"
          , message := "Comprehensive drug intelligence report ready for " ++ drug_name
          , results := some (mkFinalResult drug_name analysis_id research_data analysis_results)
          , executive_summary := some executive_summary }]

/-! ### Drug-analysis endpoints (`app/api/endpoints/drug_analysis.py`) -/

/-- One entry of the module-level `active_analyses` dict (the in-memory job
registry); the dict key is the analysis id. -/
structure AnalysisSession where
  drug_name : String
  analysis_type : String
  status : String
  progress : Nat
  current_step : String

/-- The in-memory job registry `active_analyses`. -/
abbrev Registry := List (String × AnalysisSession)

/-- Python `active_analyses.get(analysis_id)` / `analysis_id in active_analyses`. -/
def lookupSession (reg : Registry) (i : String) : Option AnalysisSession :=
  (reg.find? (fun p => p.1 == i)).map (·.2)

/-- Python `active_analyses[analysis_id] = session` (assignment replaces any
previous binding; only lookup observes the dict, so ordering is free). -/
def setSession (reg : Registry) (i : String) (s : AnalysisSession) : Registry :=
  (i, s) :: reg.filter (fun p => p.1 ≠ i)

/-- Observable server state: the in-memory job registry plus the Redis
connection. -/
structure SystemState where
  registry : Registry
  client : RedisClient

/-- Body of the `POST /drug/analyze` response. -/
structure SubmitResponse where
  analysis_id : JVal
  status : String
  message : String
  cached : Bool
  results : Option JVal

/-- Outcome of `start_drug_analysis`: a JSON body, or an `HTTPException`. -/
inductive SubmitOutcome where
  | ok (r : SubmitResponse)
  | httpError (status_code : Nat) (detail : String)

/-- The short-circuit test of `start_drug_analysis` (lines 28–34): the cached
drug-analysis entry must be truthy, hold a truthy `full_analysis`, and carry
a fresh `timestamp` (within 21600 seconds = 6 hours).  A present timestamp
that is not a modelled datetime (`JVal.num`) stands for an unparsable
isoformat string: `datetime.fromisoformat` raises and the endpoint's outer
handler turns that into a 500. -/
inductive CacheCheck where
  | hit (analysis_data : JVal)
  | miss
  | parseFailure

/-- Evaluation of the cache-aside short-circuit condition. -/
def checkCachedAnalysis (cachedAnalysis : Option JVal) (now : Nat) : CacheCheck :=
  match cachedAnalysis with
  | none => .miss
  | some ca =>
    if ca.truthy then
      match ca.get "full_analysis" with
      | some fa =>
        if fa.truthy then
          match fa.get "timestamp" with
          | some (.num t) => if (now : Int) - t < 21600 then .hit fa else .miss
          | some _ => .parseFailure
          | none => .miss
        else .miss
      | none => .miss
    else .miss

/-- Model of `start_drug_analysis` (`POST /drug/analyze`): cache-aside
short-circuit on a fresh `full_analysis` entry, otherwise register a fresh
queued session under the new analysis id (`uuid4`, passed in as `newId`),
persist a lightweight session record, and answer `cached: false`.  The
background task only marks the fresh job in progress and is modelled
separately by `run_background_analysis`. -/
def start_drug_analysis (st : SystemState) (drug_name analysis_type newId : String)
    (now : Nat) : SubmitOutcome × SystemState :=
  match checkCachedAnalysis (get_drug_analysis st.client drug_name now).1 now with
  | .hit analysis_data =>
    (.ok { analysis_id := (analysis_data.get "analysis_id").getD (.str "cached")
         , status := "completed_from_cache"
         , message := "Recent analysis found for " ++ drug_name
         , cached := true
         , results := analysis_data.get "results" },
     { st with client :=
        (increment_counter (get_drug_analysis st.client drug_name now).2
          "usage" "drug_analysis" (some "cache_hits") 1 now).2 })
  | .parseFailure =>
    (.httpError 500 "Failed to start analysis: invalid isoformat string",
     { st with client :=
        (increment_counter (get_drug_analysis st.client drug_name now).2
          "errors" "drug_analysis" (some "failures") 1 now).2 })
  | .miss =>
    let session : AnalysisSession :=
      { drug_name := drug_name, analysis_type := analysis_type
      , status := "queued", progress := 0, current_step := "Analysis queued" }
    let sessionRecord : JVal := .obj
      [ ("type", .str "drug_analysis"), ("drug_name", .str drug_name)
      , ("analysis_type", .str analysis_type), ("status", .str "queued")
      , ("created_at", .num now) ]
    (.ok { analysis_id := .str newId, status := "queued"
         , message := "Drug analysis started for " ++ drug_name
         , cached := false, results := none },
     { registry := setSession st.registry newId session
     , client :=
        (increment_counter
          (cache_user_session (get_drug_analysis st.client drug_name now).2
            newId sessionRecord now).2
          "usage" "drug_analysis" (some "requests") 1 now).2 })

/-- Model of `run_background_analysis`: the scheduled background task only
flips its own job to `in_progress` (the pipeline itself runs in the stream
endpoint); an unknown id leaves the state unchanged. -/
def run_background_analysis (st : SystemState) (analysis_id : String) : SystemState :=
  match lookupSession st.registry analysis_id with
  | some s => { st with registry := setSession st.registry analysis_id { s with status := "in_progress" } }
  | none => st

/-- One server-sent item of the progress stream: a progress event, or the
single `data: {"error": "Analysis not found"}` line for an unknown id. -/
inductive StreamItem where
  | event (e : ProgressEvent)
  | unknownAnalysis

/-- The stream loop of `generate_stream`: for each workflow event, update the
registry entry's status/progress/current_step, emit the event, and stop
right after a terminal (`completed`/`failed`) event. -/
def applyStream (reg : Registry) (i : String) :
    List ProgressEvent → List StreamItem × Registry
  | [] => ([], reg)
  | e :: rest =>
    let reg1 :=
      match lookupSession reg i with
      | some s =>
        setSession reg i
          { s with status := e.status, progress := e.progress,
                   current_step := e.current_step }
      | none => reg
    if e.status == "completed" || e.status == "failed" then
      ([.event e], reg1)
    else
      let (items, reg2) := applyStream reg1 i rest
      (.event e :: items, reg2)

/-- Model of `stream_analysis_progress` (`GET /drug/analyze/{id}/stream`):
an unknown id yields the single error item; a known id re-runs
`run_drug_intelligence_workflow` for the session's drug name, mirroring
each update into the registry.  The endpoint touches no cache. -/
def generate_stream (st : SystemState) (analysis_id : String) (env : WorkflowEnv) :
    List StreamItem × SystemState :=
  match lookupSession st.registry analysis_id with
  | none => ([.unknownAnalysis], st)
  | some sess =>
    let res :=
      applyStream st.registry analysis_id
        (runWorkflowEvents sess.drug_name analysis_id env)
    (res.1, { st with registry := res.2 })

/-- Body of the `GET /drug/analyze/{id}/status` response. -/
structure AnalysisProgress where
  analysis_id : String
  status : String
  progress_percentage : Nat
  current_step : String

/-- Model of `get_analysis_status`: a snapshot of the registry entry, or the
404 `HTTPException` for an unknown id; the state is read, never written. -/
def get_analysis_status (st : SystemState) (analysis_id : String) :
    Except (Nat × String) AnalysisProgress :=
  match lookupSession st.registry analysis_id with
  | none => .error (404, "Analysis not found")
  | some a =>
    .ok { analysis_id := analysis_id, status := a.status
        , progress_percentage := a.progress, current_step := a.current_step }

/-! ### Health-analysis memoization keys (`app/api/endpoints/health_analysis.py`) -/

/-- Normalization applied per medication name in the interaction key:
`med.lower().replace(" ", "_")`. -/
def normalizeMedForKey (med : String) : String := pyReplaceChar ' ' '_' (pyLower med)

/-- Model of the `med_cache_key` built at `health_analysis.py:82`:
`"_".join(sorted([med.lower().replace(" ", "_") for med in current_medications]))`. -/
def medCacheKey (medications : List String) : String :=
  pyJoin "_" (pySorted (medications.map normalizeMedForKey))

/-- Normalization applied per list entry in `_generate_request_hash`:
`x.lower().strip()`. -/
def normalizeForHash (s : String) : String := pyStrip (pyLower s)

/-- The fields of a `POST /analyze-health` request relevant to the cache key. -/
structure HealthAnalysisRequest where
  concern : String
  symptoms : String
  patient_age : Option Int
  patient_gender : Option String
  medical_history : Option (List String)
  current_medications : Option (List String)

/-- The normalized `request_data` dict built inside `_generate_request_hash`
before `json.dumps(..., sort_keys=True)` and `hashlib.md5`. -/
structure RequestData where
  concern : String
  symptoms : String
  patient_age : Option Int
  patient_gender : Option String
  medical_history : Option (List String)
  current_medications : Option (List String)

/-- The normalization step of `_generate_request_hash`: lower-case and strip
the free-text fields, lower-case the gender, sort the normalized history and
medication lists. -/
def requestDataCanon (r : HealthAnalysisRequest) : RequestData where
  concern := pyStrip (pyLower r.concern)
  symptoms := pyStrip (pyLower r.symptoms)
  patient_age := r.patient_age
  patient_gender := r.patient_gender.map pyLower
  medical_history := r.medical_history.map (fun h => pySorted (h.map normalizeForHash))
  current_medications := r.current_medications.map (fun m => pySorted (m.map normalizeForHash))

/-- Model of `_generate_request_hash`: the MD5 hex digest of the canonical
JSON dump of `request_data`.  `md5 ∘ json.dumps(..., sort_keys=True)` is a
pure function of the `request_data` value; it is passed in as `digest` (an
external stdlib capability, like the Redis client). -/
def generate_request_hash (digest : RequestData → String)
    (r : HealthAnalysisRequest) : String :=
  digest (requestDataCanon r)

/-- The write at `health_analysis.py:97`: the interaction analysis is cached
under the order-independent medication key with a hard-coded `ttl=86400`. -/
def cacheMedicationInteractions (c : RedisClient) (medications : List String)
    (interaction_analysis : JVal) (now : Nat) : Bool × RedisClient :=
  set_cache c "medication_interactions" (medCacheKey medications)
    interaction_analysis 86400 none now

/-- The write at `health_analysis.py:106`: the full result is cached under
the request hash with a hard-coded `ttl=3600`. -/
def cacheHealthAnalysisResult (c : RedisClient) (digest : RequestData → String)
    (r : HealthAnalysisRequest) (result : JVal) (now : Nat) : Bool × RedisClient :=
  set_cache c "health_analysis" (generate_request_hash digest r) result 3600 none now

/-! ### Cache administration endpoint (`app/api/endpoints/cache.py`) -/

/-- Model of `cache_analysis_result` (`POST /cache/analysis-result/{drug}`):
stores the posted payload under the `analysis_results` category with the
request-supplied TTL (`AnalysisResultRequest.ttl`, default 7200). -/
def cache_analysis_result (c : RedisClient) (drug_name : String)
    (result_data : JVal) (request_ttl : Nat) (now : Nat) : Bool × RedisClient :=
  set_cache c "analysis_results" (pyReplaceChar ' ' '_' (pyLower drug_name))
    result_data request_ttl none now

/-- The static per-category TTL policy table: the `CACHE_TTL_*` constants of
`app/core/config.py`, keyed by the cache category each is used for in the
`RedisService` helper methods. -/
def cacheTTLPolicy : List (String × Nat) :=
  [ ("user", CACHE_TTL_USER_SESSION)
  , ("symptom", CACHE_TTL_SYMPTOM_INPUT)
  , ("ai_summary", CACHE_TTL_AI_SUMMARY)
  , ("drug_analysis", CACHE_TTL_DRUG_ANALYSIS)
  , ("ocr_result", CACHE_TTL_OCR_RESULTS)
  , ("fda_validation", CACHE_TTL_FDA_VALIDATION)
  , ("medication_info", CACHE_TTL_MEDICATION_INFO)
  , ("session_state", CACHE_TTL_SESSION_STATE)
  , ("analysis_progress", CACHE_TTL_ANALYSIS_PROGRESS) ]

/-- The TTL values of the policy table (every configured `CACHE_TTL_*`). -/
def policyTTLValues : List Nat :=
  [ CACHE_TTL_USER_SESSION, CACHE_TTL_SYMPTOM_INPUT, CACHE_TTL_AI_SUMMARY
  , CACHE_TTL_DRUG_ANALYSIS, CACHE_TTL_OCR_RESULTS, CACHE_TTL_FDA_VALIDATION
  , CACHE_TTL_MEDICATION_INFO, CACHE_TTL_SESSION_STATE
  , CACHE_TTL_USER_PREFERENCES, CACHE_TTL_ANALYSIS_PROGRESS ]

/-! ## Theorems -/

/-- C2: Fail-open store.  When the Redis client is missing
(`redis_client is None`) or every retried store call raises, `set_cache`
returns `false`, `get_cache` returns `none`, and `increment_counter`
returns `0` — for every category, identifier, optional sub key and payload.
Each operation is a total Lean function, reflecting that the Python methods
catch every exception, so none of them propagates an exception to the
caller. -/
theorem fail_open_store (category identifier : String) (sub_key : Option String)
    (data : JVal) (ttl : Nat) (amount : Int) (now : Nat) (c : RedisClient)
    (h : c = .unavailable ∨ ∃ e, c = .broken e) :
    (set_cache c category identifier data ttl sub_key now).1 = false ∧
    (get_cache c category identifier sub_key now).1 = none ∧
    (increment_counter c category identifier sub_key amount now).1 = 0 := by
  rcases h with h | ⟨e, h⟩ <;> subst h
  · exact ⟨rfl, rfl, rfl⟩
  · cases e <;> exact ⟨rfl, rfl, rfl⟩

/-- Witness for C2 at a concretely broken connection. -/
theorem fail_open_store_witness :
    (set_cache (.broken (.connectionError "connection reset by peer"))
      "user" "u1" (.obj [("k", .num 1)]) 3600 (some "session") 7).1 = false ∧
    (get_cache (.broken (.connectionError "connection reset by peer"))
      "user" "u1" (some "session") 7).1 = none ∧
    (increment_counter (.broken (.connectionError "connection reset by peer"))
      "usage" "drug_analysis" (some "requests") 1 7).1 = 0 :=
  fail_open_store "user" "u1" (some "session") (.obj [("k", .num 1)]) 3600 1 7 _
    (Or.inr ⟨_, rfl⟩)

/-- C7: Cache-aside round-trip and expiry.  On a live store, a `set_cache`
immediately followed by a `get_cache` of the same `(category, identifier,
sub_key)` returns the written payload, and once the write's TTL has elapsed
the same read returns `none`.  (The payload is required non-`null` because a
written JSON `null` deserializes back to the same Python `None` the absent
case returns.) -/
theorem cache_roundtrip_and_expiry (st : RedisStore) (category identifier : String)
    (sub_key : Option String) (data : JVal) (ttl : Nat) (now tLater : Nat)
    (hdata : data ≠ .null) (httl : 0 < ttl) :
    (get_cache ((set_cache (.live st) category identifier data ttl sub_key now).2)
        category identifier sub_key now).1 = some data ∧
    (now + ttl ≤ tLater →
      (get_cache ((set_cache (.live st) category identifier data ttl sub_key now).2)
          category identifier sub_key tLater).1 = none) := by
  constructor
  · show (get_cache (.live (st.setex (getKey category identifier sub_key) ttl data now))
        category identifier sub_key now).1 = some data
    simp only [get_cache, RedisStore.setex, RedisStore.get, List.find?,
      beq_self_eq_true]
    rw [if_pos (by omega)]
    cases data with
    | null => exact absurd rfl hdata
    | bool b => rfl
    | num n => rfl
    | str s => rfl
    | arr xs => rfl
    | obj fields => rfl
  · intro hle
    show (get_cache (.live (st.setex (getKey category identifier sub_key) ttl data now))
        category identifier sub_key tLater).1 = none
    simp only [get_cache, RedisStore.setex, RedisStore.get, List.find?,
      beq_self_eq_true]
    rw [if_neg (by omega)]

/-- Witness for C7: a concrete drug-analysis payload written at instant 0
with the 24-hour TTL, read back at 0 and at 86400. -/
theorem cache_roundtrip_and_expiry_witness :
    (get_cache ((set_cache (.live ⟨[]⟩) "drug_analysis" "aspirin"
        (.obj [("dose_mg", .num 100)]) 86400 none 0).2)
      "drug_analysis" "aspirin" none 0).1 = some (.obj [("dose_mg", .num 100)]) ∧
    (get_cache ((set_cache (.live ⟨[]⟩) "drug_analysis" "aspirin"
        (.obj [("dose_mg", .num 100)]) 86400 none 0).2)
      "drug_analysis" "aspirin" none 86400).1 = none := by
  have h := cache_roundtrip_and_expiry ⟨[]⟩ "drug_analysis" "aspirin" none
    (.obj [("dose_mg", .num 100)]) 86400 0 86400 (by intro hh; nomatch hh)
    (by decide)
  exact ⟨h.1, h.2 (by decide)⟩

/-- C6: Tiered reasoning fallback.  If the Claude tier fails the Nova
Premier tier is attempted (which in turn falls back to Nova Micro), and
whenever no Bedrock client is configured or every tier fails,
`generate_analysis` returns the fixed fallback report — a constant string,
independent of prompt, preference and complexity.  All functions involved
are total: no exception reaches the caller. -/
theorem tiered_reasoning_fallback (clientAvailable : Bool) (o : BedrockOutcomes)
    (modelPreference complexity : String) :
    (∀ e, o.claude = .error e →
      generateClaudeAnalysis o = generateNovaPremierAnalysis o) ∧
    ((clientAvailable = false ∨
        ((∃ e, o.claude = .error e) ∧ (∃ e, o.novaPremier = .error e) ∧
         (∃ e, o.novaMicro = .error e))) →
      generate_analysis clientAvailable o modelPreference complexity =
        fallbackAnalysisText) := by
  constructor
  · intro e he
    simp [generateClaudeAnalysis, he]
  · intro h
    rcases h with h | ⟨⟨e1, h1⟩, ⟨e2, h2⟩, ⟨e3, h3⟩⟩
    · subst h
      rfl
    · have hm : generateNovaMicroAnalysis o = fallbackAnalysisText := by
        simp [generateNovaMicroAnalysis, h3]
      have hp : generateNovaPremierAnalysis o = fallbackAnalysisText := by
        simp [generateNovaPremierAnalysis, h2, hm]
      have hc : generateClaudeAnalysis o = fallbackAnalysisText := by
        simp [generateClaudeAnalysis, h1, hp]
      unfold generate_analysis
      split
      · rfl
      · split
        · exact hc
        · split
          · exact hp
          · split
            · exact hm
            · exact hp

/-- Witness for C6: every tier of a configured client failing yields the
fallback report. -/
theorem tiered_reasoning_fallback_witness :
    generate_analysis true
      ⟨.error (.otherError "throttled"), .error (.otherError "throttled"),
       .error (.otherError "throttled")⟩ "claude" "high" = fallbackAnalysisText :=
  (tiered_reasoning_fallback true
    ⟨.error (.otherError "throttled"), .error (.otherError "throttled"),
     .error (.otherError "throttled")⟩ "claude" "high").2
    (Or.inr ⟨⟨_, rfl⟩, ⟨_, rfl⟩, ⟨_, rfl⟩⟩)

/-- Helper: the raw slots of the collector's aggregate are independent of
the enhancement outcome (`_enhance_research_data` carries `raw_data`
through on success and returns it unchanged on failure). -/
theorem scrape_raw_eq (o : SourceFetchOutcomes) (aiOutcome : Except PyExc String) :
    (scrape_drug_data o aiOutcome).raw = gatherRawData o := by
  cases aiOutcome <;> rfl

/-- Helper: one slot of the gathered aggregate equals the fetched value on
success and the slot's empty default on failure; under the assumption that a
successful fetch is not itself the default, the slot is the default exactly
when the fetch failed. -/
theorem slot_spec (dflt : JVal) (r : Except PyExc JVal) (slot : JVal)
    (hslot : slot = match r with | .ok v => v | .error _ => dflt)
    (hne : ∀ v, r = .ok v → v ≠ dflt) :
    (slot = dflt ↔ ∃ e, r = .error e) ∧ (∀ v, r = .ok v → slot = v) := by
  subst hslot
  cases r with
  | ok v =>
    refine ⟨⟨fun h => absurd h (hne v rfl), ?_⟩, ?_⟩
    · rintro ⟨e, he⟩
      nomatch he
    · intro w hw
      cases hw
      rfl
  | error e =>
    refine ⟨⟨fun _ => ⟨e, rfl⟩, fun _ => rfl⟩, ?_⟩
    intro w hw
    nomatch hw

/-- C3: Partial-failure tolerance of the Source Collector.  For every
combination of the five source-fetch outcomes in which each successful
fetch returns something other than its slot's empty default, the aggregate
returned by `scrape_drug_data` has exactly the failing sources' slots equal
to the empty default (`{}` or `[]`) and every other slot equal to the
fetched result.  `scrape_drug_data` is a total function: the gather uses
`return_exceptions=True` and the enhancement step catches every exception,
so the call never raises — in particular with any strict subset of sources
failing, e.g. exactly 1 of 5, the other 4 slots are populated. -/
theorem collector_partial_failure (o : SourceFetchOutcomes)
    (aiOutcome : Except PyExc String)
    (hfda : ∀ v, o.fda = .ok v → v ≠ .obj [])
    (hpub : ∀ v, o.pubmed = .ok v → v ≠ .obj [])
    (hcli : ∀ v, o.clinical = .ok v → v ≠ .arr [])
    (hmkt : ∀ v, o.market = .ok v → v ≠ .obj [])
    (hcmp : ∀ v, o.competitor = .ok v → v ≠ .arr []) :
    (((scrape_drug_data o aiOutcome).raw.fda_data = .obj [] ↔ ∃ e, o.fda = .error e) ∧
      (∀ v, o.fda = .ok v → (scrape_drug_data o aiOutcome).raw.fda_data = v)) ∧
    (((scrape_drug_data o aiOutcome).raw.pubmed_data = .obj [] ↔ ∃ e, o.pubmed = .error e) ∧
      (∀ v, o.pubmed = .ok v → (scrape_drug_data o aiOutcome).raw.pubmed_data = v)) ∧
    (((scrape_drug_data o aiOutcome).raw.clinical_trials = .arr [] ↔ ∃ e, o.clinical = .error e) ∧
      (∀ v, o.clinical = .ok v → (scrape_drug_data o aiOutcome).raw.clinical_trials = v)) ∧
    (((scrape_drug_data o aiOutcome).raw.market_data = .obj [] ↔ ∃ e, o.market = .error e) ∧
      (∀ v, o.market = .ok v → (scrape_drug_data o aiOutcome).raw.market_data = v)) ∧
    (((scrape_drug_data o aiOutcome).raw.competitor_data = .arr [] ↔ ∃ e, o.competitor = .error e) ∧
      (∀ v, o.competitor = .ok v → (scrape_drug_data o aiOutcome).raw.competitor_data = v)) := by
  rw [scrape_raw_eq]
  exact ⟨slot_spec (.obj []) o.fda _ rfl hfda, slot_spec (.obj []) o.pubmed _ rfl hpub,
    slot_spec (.arr []) o.clinical _ rfl hcli, slot_spec (.obj []) o.market _ rfl hmkt,
    slot_spec (.arr []) o.competitor _ rfl hcmp⟩

/-- Concrete source-fetch outcomes for the C3 witness: PubMed raises, the
other four sources return non-empty data. -/
def sampleOutcomes : SourceFetchOutcomes where
  fda := .ok (.obj [("generic_name", .str "aspirin")])
  pubmed := .error (.otherError "ReadTimeout")
  clinical := .ok (.arr [.obj [("nct_id", .str "NCT00000001")]])
  market := .ok (.obj [("market_size", .str "large")])
  competitor := .ok (.arr [.str "ibuprofen"])

/-- Witness for C3: with exactly 1 of the 5 sources failing, that slot is
empty and the other 4 hold their fetched results. -/
theorem collector_partial_failure_witness :
    (scrape_drug_data sampleOutcomes (.ok "insights")).raw.pubmed_data = .obj [] ∧
    (scrape_drug_data sampleOutcomes (.ok "insights")).raw.fda_data =
      .obj [("generic_name", .str "aspirin")] ∧
    (scrape_drug_data sampleOutcomes (.ok "insights")).raw.clinical_trials =
      .arr [.obj [("nct_id", .str "NCT00000001")]] ∧
    (scrape_drug_data sampleOutcomes (.ok "insights")).raw.market_data =
      .obj [("market_size", .str "large")] ∧
    (scrape_drug_data sampleOutcomes (.ok "insights")).raw.competitor_data =
      .arr [.str "ibuprofen"] := by
  have h := collector_partial_failure sampleOutcomes (.ok "insights")
    (by intro v hv; cases hv; intro hh; nomatch hh)
    (by intro v hv; nomatch hv)
    (by intro v hv; cases hv; intro hh; nomatch hh)
    (by intro v hv; cases hv; intro hh; nomatch hh)
    (by intro v hv; cases hv; intro hh; nomatch hh)
  exact ⟨h.2.1.1.mpr ⟨_, rfl⟩, h.1.2 _ rfl, h.2.2.1.2 _ rfl, h.2.2.2.1.2 _ rfl,
    h.2.2.2.2.2 _ rfl⟩

/-- Helper: a subscription for a known analysis id emits the full event
sequence of a fresh workflow run (the run's only terminal event is its last,
so the `break` in the stream loop truncates nothing). -/
theorem stream_items_known (st : SystemState) (i : String) (sess : AnalysisSession)
    (env : WorkflowEnv) (h : lookupSession st.registry i = some sess) :
    (generate_stream st i env).1 =
      (runWorkflowEvents sess.drug_name i env).map .event := by
  unfold generate_stream
  rw [h]
  rcases env with ⟨res, ana, sum⟩
  cases res <;> cases ana <;> cases sum <;> rfl

/-- C5: Monotonic fixed progress schedule.  For a known job whose three
pipeline stages all succeed, the progress values carried by the streamed
events are exactly the fixed stage schedule 10, 40, 70, 100 — in that order
(hence non-decreasing) — and the final event has status `completed` with
progress 100. -/
theorem progress_schedule (st : SystemState) (i : String) (sess : AnalysisSession)
    (env : WorkflowEnv) (rd : EnhancedDrugData) (ar : JVal) (es : String)
    (h : lookupSession st.registry i = some sess)
    (h1 : env.research = .ok rd) (h2 : env.analysis = .ok ar)
    (h3 : env.summary = .ok es) :
    (generate_stream st i env).1 =
      (runWorkflowEvents sess.drug_name i env).map .event ∧
    (runWorkflowEvents sess.drug_name i env).map (·.progress) = [10, 40, 70, 100] ∧
    (∃ e, (runWorkflowEvents sess.drug_name i env).getLast? = some e ∧
      e.status = "completed" ∧ e.progress = 100) := by
  refine ⟨stream_items_known st i sess env h, ?_, ?_⟩
  · rcases env with ⟨res, ana, sum⟩
    cases h1; cases h2; cases h3
    rfl
  · rcases env with ⟨res, ana, sum⟩
    cases h1; cases h2; cases h3
    exact ⟨_, rfl, rfl, rfl⟩

/-- Concrete all-stages-succeed workflow environment used by witnesses. -/
def envOkSample : WorkflowEnv where
  research := .ok
    { raw :=
        { fda_data := .obj [("generic_name", .str "aspirin")]
        , pubmed_data := .obj []
        , clinical_trials := .arr []
        , market_data := .obj []
        , competitor_data := .arr [] }
    , ai_insights := some "insights" }
  analysis := .ok (.obj [("swot_analysis", .obj [])])
  summary := .ok "executive summary"

/-- Concrete system state with one completed job, used by witnesses. -/
def completedStateSample : SystemState where
  registry :=
    [("job1",
      { drug_name := "aspirin", analysis_type := "market_research"
      , status := "completed", progress := 100
      , current_step := "Analysis complete" })]
  client := .live ⟨[]⟩

/-- Witness for C5 on a concrete job and all-success stage outcomes. -/
theorem progress_schedule_witness :
    (runWorkflowEvents "aspirin" "job1" envOkSample).map (·.progress) =
      [10, 40, 70, 100] ∧
    ((runWorkflowEvents "aspirin" "job1" envOkSample).getLast?).map
      (fun e => (e.status, e.progress)) = some ("completed", 100) := by
  have h := progress_schedule completedStateSample "job1"
    { drug_name := "aspirin", analysis_type := "market_research"
    , status := "completed", progress := 100
    , current_step := "Analysis complete" }
    envOkSample
    { raw :=
        { fda_data := .obj [("generic_name", .str "aspirin")]
        , pubmed_data := .obj []
        , clinical_trials := .arr []
        , market_data := .obj []
        , competitor_data := .arr [] }
    , ai_insights := some "insights" }
    (.obj [("swot_analysis", .obj [])]) "executive summary" rfl rfl rfl rfl
  obtain ⟨e, he, hst, hpr⟩ := h.2.2
  refine ⟨h.2.1, ?_⟩
  rw [he]
  simp [hst, hpr]

/-- Concrete system state with one failed (terminal) job, used to refute
C4. -/
def failedStateSample : SystemState where
  registry :=
    [("job1",
      { drug_name := "aspirin", analysis_type := "market_research"
      , status := "failed", progress := 0
      , current_step := "Analysis failed" })]
  client := .unavailable

/-- Counterexample to C4: `job1` is in the terminal state `failed`, yet a
stream subscription for it re-runs the pipeline (four fresh events are
emitted) and leaves the job `completed` with progress 100 — a terminal
job's status, progress and current step were all changed by an operation of
the system. -/
theorem terminal_absorption_counterexample :
    (lookupSession failedStateSample.registry "job1").map (·.status) =
      some "failed" ∧
    (generate_stream failedStateSample "job1" envOkSample).1.length = 4 ∧
    (lookupSession
        (generate_stream failedStateSample "job1" envOkSample).2.registry
        "job1").map (fun s => (s.status, s.progress, s.current_step)) =
      some ("completed", 100, "Analysis complete") :=
  ⟨rfl, rfl, rfl⟩

/-- C4 as amended: stream subscription is not guarded by the job's state —
for every known job (terminal or not) it re-runs the full pipeline and
overwrites the job's status/progress/current_step event by event.  Within a
single run the schedule restarts at `in_progress`/10, every non-final event
is `in_progress`, and the terminal event (`completed` or `failed`) is
exactly the last — so terminal states absorb only with respect to the run
that produced them, not across stream subscriptions. -/
theorem terminal_not_restartable_amended (st : SystemState) (i : String)
    (sess : AnalysisSession) (env : WorkflowEnv)
    (h : lookupSession st.registry i = some sess) :
    (generate_stream st i env).1 =
      (runWorkflowEvents sess.drug_name i env).map .event ∧
    ((runWorkflowEvents sess.drug_name i env).head?).map
        (fun e => (e.status, e.progress)) = some ("in_progress", 10) ∧
    (∀ e ∈ (runWorkflowEvents sess.drug_name i env).dropLast,
      e.status = "in_progress") ∧
    (∃ e, (runWorkflowEvents sess.drug_name i env).getLast? = some e ∧
      (e.status = "completed" ∨ e.status = "failed")) := by
  refine ⟨stream_items_known st i sess env h, ?_, ?_, ?_⟩
  · rcases env with ⟨res, ana, sum⟩
    cases res <;> cases ana <;> cases sum <;> rfl
  · rcases env with ⟨res, ana, sum⟩
    cases res <;> cases ana <;> cases sum <;>
      (intro e he
       simp only [runWorkflowEvents, List.dropLast, List.mem_cons,
         List.not_mem_nil, or_false] at he) <;>
      rcases he with rfl | rfl | rfl | rfl <;> rfl
  · rcases env with ⟨res, ana, sum⟩
    cases res <;> cases ana <;> cases sum <;>
      first
        | exact ⟨_, rfl, Or.inl rfl⟩
        | exact ⟨_, rfl, Or.inr rfl⟩

/-- Witness for C4's amended statement: subscribing to the completed `job1`
re-emits the full schedule, starting again at `in_progress`/10. -/
theorem terminal_not_restartable_amended_witness :
    (generate_stream completedStateSample "job1" envOkSample).1 =
      (runWorkflowEvents "aspirin" "job1" envOkSample).map .event ∧
    ((runWorkflowEvents "aspirin" "job1" envOkSample).head?).map
        (fun e => (e.status, e.progress)) = some ("in_progress", 10) := by
  have h := terminal_not_restartable_amended completedStateSample "job1"
    { drug_name := "aspirin", analysis_type := "market_research"
    , status := "completed", progress := 100
    , current_step := "Analysis complete" }
    envOkSample rfl
  exact ⟨h.1, h.2.1⟩

/-- Fresh server state (empty registry, live empty cache), the starting
point of the C1 scenario. -/
def freshStateSample : SystemState where
  registry := []
  client := .live ⟨[]⟩

/-- Counterexample to C1: starting from an empty cache, `aspirin` is
submitted (`cached: false`), its stream subscription runs the pipeline to
completion (the job ends `completed`), and yet a second submission of
`Aspirin` (same normalized subject) at 100 seconds — far inside the 6-hour
freshness window — again returns `cached: false` and queues a new job: the
completed workflow wrote no result back to the cache, so the cache-aside
short-circuit never fires. -/
theorem idempotent_submission_counterexample :
    (start_drug_analysis freshStateSample "aspirin" "market_research" "job1" 0).1 =
      .ok { analysis_id := .str "job1", status := "queued"
          , message := "Drug analysis started for aspirin"
          , cached := false, results := none } ∧
    (lookupSession
        (generate_stream
          (start_drug_analysis freshStateSample "aspirin" "market_research" "job1" 0).2
          "job1" envOkSample).2.registry "job1").map (·.status) =
      some "completed" ∧
    (start_drug_analysis
        (generate_stream
          (start_drug_analysis freshStateSample "aspirin" "market_research" "job1" 0).2
          "job1" envOkSample).2
        "Aspirin" "market_research" "job2" 100).1 =
      .ok { analysis_id := .str "job2", status := "queued"
          , message := "Drug analysis started for Aspirin"
          , cached := false, results := none } :=
  ⟨rfl, rfl, rfl⟩

/-- C1 as amended: completion performs no cache write-back — stream
execution (which is what runs the pipeline) leaves the Redis client
untouched — so a repeated submission reports `cached: true` only if some
external writer stored a fresh `full_analysis` entry under the
`drug_analysis` category; whenever no such entry exists, every successful
submission response has `cached: false` (and schedules the pipeline
again). -/
theorem submission_no_writeback_amended (st : SystemState)
    (analysis_id : String) (env : WorkflowEnv)
    (drug atype newId : String) (now : Nat) :
    (generate_stream st analysis_id env).2.client = st.client ∧
    ((∀ fa, checkCachedAnalysis (get_drug_analysis st.client drug now).1 now ≠
        .hit fa) →
      ∀ r, (start_drug_analysis st drug atype newId now).1 = .ok r →
        r.cached = false) := by
  constructor
  · unfold generate_stream
    cases h : lookupSession st.registry analysis_id with
    | none => rfl
    | some sess => rfl
  · intro hnohit r hr
    unfold start_drug_analysis at hr
    cases hcheck : checkCachedAnalysis (get_drug_analysis st.client drug now).1 now with
    | hit fa => exact absurd hcheck (hnohit fa)
    | parseFailure =>
      rw [hcheck] at hr
      nomatch hr
    | miss =>
      rw [hcheck] at hr
      simp only [SubmitOutcome.ok.injEq] at hr
      rw [← hr]

/-- Witness for C1's amended statement at the concrete fresh state. -/
theorem submission_no_writeback_amended_witness :
    (generate_stream freshStateSample "job1" envOkSample).2.client =
      freshStateSample.client ∧
    SubmitResponse.cached
      { analysis_id := .str "job1", status := "queued"
      , message := "Drug analysis started for aspirin"
      , cached := false, results := none } = false := by
  have h := submission_no_writeback_amended freshStateSample "job1" envOkSample
    "aspirin" "market_research" "job1" 0
  exact ⟨h.1, h.2 (fun fa hh => by nomatch hh) _ rfl⟩

/-- C10: A cache-hit submission returns an unqueryable job handle.  Whenever
a submission short-circuits on a fresh cached result (`cached: true`), the
registry is left exactly as it was — in particular the returned analysis id
is not registered — so for any returned id not already present (the id
comes from the cached payload, not from this process's registry), a status
query answers 404 "Analysis not found" and a stream subscription yields
only the single error item, even though the submission response reported
the analysis as completed-from-cache. -/
theorem cache_hit_unqueryable (st : SystemState) (drug atype newId : String)
    (now : Nat) (r : SubmitResponse)
    (hok : (start_drug_analysis st drug atype newId now).1 = .ok r)
    (hcached : r.cached = true) :
    (start_drug_analysis st drug atype newId now).2.registry = st.registry ∧
    (∀ s : String, r.analysis_id = .str s → lookupSession st.registry s = none →
      get_analysis_status (start_drug_analysis st drug atype newId now).2 s =
        .error (404, "Analysis not found") ∧
      ∀ env, (generate_stream (start_drug_analysis st drug atype newId now).2 s env).1 =
        [.unknownAnalysis]) := by
  unfold start_drug_analysis at hok ⊢
  cases hcheck : checkCachedAnalysis (get_drug_analysis st.client drug now).1 now with
  | hit fa =>
    refine ⟨rfl, ?_⟩
    intro s hs hnone
    constructor
    · unfold get_analysis_status
      rw [show (lookupSession st.registry s = none) from hnone]
    · intro env
      unfold generate_stream
      rw [show (lookupSession st.registry s = none) from hnone]
  | parseFailure =>
    rw [hcheck] at hok
    nomatch hok
  | miss =>
    rw [hcheck] at hok
    simp only [SubmitOutcome.ok.injEq] at hok
    rw [← hok] at hcached
    nomatch hcached

/-- Concrete state whose cache already holds a fresh `full_analysis` entry
for `aspirin` written by an external writer (nothing in this process's
registry knows its analysis id). -/
def cachedStateSample : SystemState where
  registry := []
  client := .live
    ⟨[("medinsight:drug_analysis:aspirin",
       .obj [("full_analysis",
         .obj [ ("timestamp", .num 0)
              , ("analysis_id", .str "ext-1")
              , ("results", .obj [("ok", .bool true)]) ])],
       some 86400)]⟩

/-- Witness for C10: the concrete cache-hit submission at 100 seconds leaves
the registry empty, and both follow-up queries for the returned id fail. -/
theorem cache_hit_unqueryable_witness :
    (start_drug_analysis cachedStateSample "aspirin" "market_research" "jobX" 100).2.registry =
      cachedStateSample.registry ∧
    get_analysis_status
      (start_drug_analysis cachedStateSample "aspirin" "market_research" "jobX" 100).2
      "ext-1" = .error (404, "Analysis not found") ∧
    (generate_stream
      (start_drug_analysis cachedStateSample "aspirin" "market_research" "jobX" 100).2
      "ext-1" envOkSample).1 = [.unknownAnalysis] := by
  have h := cache_hit_unqueryable cachedStateSample "aspirin" "market_research"
    "jobX" 100
    { analysis_id := .str "ext-1", status := "completed_from_cache"
    , message := "Recent analysis found for aspirin", cached := true
    , results := some (.obj [("ok", .bool true)]) } rfl rfl
  exact ⟨h.1, (h.2 "ext-1" rfl rfl).1, (h.2 "ext-1" rfl rfl).2 envOkSample⟩

/-- Counterexample to C8: the `/cache/analysis-result` endpoint is a system
write that passes the client-supplied TTL straight to the store.  Posting
with `ttl = 12345` stores the entry with expiry `now + 12345`; 12345 is not
any configured `CACHE_TTL_*` value, and `analysis_results` — the long-lived
full-result category, not a transient test/debug one — does not even appear
in the policy table. -/
theorem ttl_policy_counterexample :
    (cache_analysis_result (.live ⟨[]⟩) "aspirin" (.obj [("summary", .str "ok")])
        12345 0).2 =
      .live ⟨[("medinsight:analysis_results:aspirin",
        .obj [("summary", .str "ok")], some 12345)]⟩ ∧
    policyTTLValues.contains 12345 = false ∧
    (cacheTTLPolicy.map (·.1)).contains "analysis_results" = false :=
  ⟨rfl, by decide, by decide⟩

/-- C8 as amended: the `RedisService` helper write methods do resolve their
TTLs from the per-category policy table (shown here for the drug-analysis
and user-session helpers), but the invariant does not extend to every
system write: the `/cache/analysis-result` endpoint forwards the
client-supplied request TTL to the store unchanged, and the
health-analysis endpoint's `medication_interactions` write uses a
hard-coded literal for a category absent from the table. -/
theorem ttl_policy_amended (st : RedisStore) (drug uid : String)
    (meds : List String) (data : JVal) (reqTtl now : Nat) :
    (∃ t, (cacheTTLPolicy.find? (fun p => p.1 == "drug_analysis")).map (·.2) =
        some t ∧
      (cache_drug_analysis (.live st) drug data now).2 =
        .live (st.setex (getKey "drug_analysis" (normalizeDrugName drug) none)
          t data now)) ∧
    (∃ t, (cacheTTLPolicy.find? (fun p => p.1 == "user")).map (·.2) = some t ∧
      (cache_user_session (.live st) uid data now).2 =
        .live (st.setex (getKey "user" uid (some "session")) t data now)) ∧
    ((cacheMedicationInteractions (.live st) meds data now).2 =
        .live (st.setex (getKey "medication_interactions" (medCacheKey meds) none)
          86400 data now) ∧
      (cacheTTLPolicy.map (·.1)).contains "medication_interactions" = false) ∧
    ((cache_analysis_result (.live st) drug data reqTtl now).2 =
      .live (st.setex
        (getKey "analysis_results" (pyReplaceChar ' ' '_' (pyLower drug)) none)
        reqTtl data now)) := by
  exact ⟨⟨CACHE_TTL_DRUG_ANALYSIS, rfl, rfl⟩, ⟨CACHE_TTL_USER_SESSION, rfl, rfl⟩,
    ⟨rfl, by decide⟩, rfl⟩

/-- Totality of the code-point comparison. -/
theorem strLeAux_total (as bs : List Char) :
    strLeAux as bs = true ∨ strLeAux bs as = true := by
  induction as generalizing bs with
  | nil => left; rfl
  | cons a as ih =>
    cases bs with
    | nil => right; rfl
    | cons b bs =>
      rcases Nat.lt_trichotomy a.toNat b.toNat with h | h | h
      · left
        simp [strLeAux, h]
      · rcases ih bs with hh | hh
        · left
          simp [strLeAux, h, hh, Nat.lt_irrefl]
        · right
          simp [strLeAux, h.symm, hh, Nat.lt_irrefl, h ▸ Nat.lt_irrefl a.toNat]
      · right
        simp [strLeAux, h]

/-- Transitivity of the code-point comparison. -/
theorem strLeAux_trans (as bs cs : List Char) (h1 : strLeAux as bs = true)
    (h2 : strLeAux bs cs = true) : strLeAux as cs = true := by
  induction as generalizing bs cs with
  | nil => rfl
  | cons a as ih =>
    cases bs with
    | nil => simp [strLeAux] at h1
    | cons b bs =>
      cases cs with
      | nil => simp [strLeAux] at h2
      | cons c cs =>
        simp only [strLeAux] at h1 h2 ⊢
        by_cases hab : a.toNat < b.toNat <;> by_cases hbc : b.toNat < c.toNat
        · simp [Nat.lt_trans hab hbc]
        · simp only [hbc, if_false] at h2
          by_cases hbc2 : b.toNat = c.toNat
          · simp [hbc2 ▸ hab]
          · simp [hbc2] at h2
        · simp only [hab, if_false] at h1
          by_cases hab2 : a.toNat = b.toNat
          · simp [hab2 ▸ hbc]
          · simp [hab2] at h1
        · simp only [hab, if_false] at h1
          simp only [hbc, if_false] at h2
          by_cases hab2 : a.toNat = b.toNat
          · by_cases hbc2 : b.toNat = c.toNat
            · have hac : a.toNat = c.toNat := hab2.trans hbc2
              have hlt : ¬ a.toNat < c.toNat := by omega
              simp only [hab2, if_true] at h1
              simp only [hbc2, if_true] at h2
              simp [hlt, hac, ih bs cs h1 h2]
            · simp [hbc2] at h2
          · simp [hab2] at h1

/-- Antisymmetry of the code-point comparison (equal code points mean equal
characters). -/
theorem strLeAux_antisymm (as bs : List Char) (h1 : strLeAux as bs = true)
    (h2 : strLeAux bs as = true) : as = bs := by
  induction as generalizing bs with
  | nil =>
    cases bs with
    | nil => rfl
    | cons b bs => simp [strLeAux] at h2
  | cons a as ih =>
    cases bs with
    | nil => simp [strLeAux] at h1
    | cons b bs =>
      simp only [strLeAux] at h1 h2
      by_cases hab : a.toNat < b.toNat
      · have hba : ¬ b.toNat < a.toNat := by omega
        have hba2 : ¬ b.toNat = a.toNat := by omega
        simp [hba, hba2] at h2
      · by_cases hab2 : a.toNat = b.toNat
        · have hchar : a = b := Char.ext (UInt32.ext hab2)
          have hba : ¬ b.toNat < a.toNat := by omega
          rw [if_neg hab, if_pos hab2] at h1
          rw [if_neg hba, if_pos hab2.symm] at h2
          rw [hchar, ih bs h1 h2]
        · simp [hab, hab2] at h1

instance : IsTotal String strLeR :=
  ⟨fun a b => strLeAux_total a.data b.data⟩

instance : IsTrans String strLeR :=
  ⟨fun a b c h1 h2 => strLeAux_trans a.data b.data c.data h1 h2⟩

instance : IsAntisymm String strLeR :=
  ⟨fun a b h1 h2 => by
    cases a with
    | mk as =>
      cases b with
      | mk bs =>
        rw [strLeAux_antisymm as bs h1 h2]⟩

/-- Permutation invariance of the modelled Python `sorted`: permuted string
lists sort to the same list. -/
theorem pySorted_eq_of_perm {l1 l2 : List String} (h : l1.Perm l2) :
    pySorted l1 = pySorted l2 := by
  unfold pySorted
  exact List.eq_of_perm_of_sorted
    ((List.perm_insertionSort strLeR l1).trans
      (h.trans (List.perm_insertionSort strLeR l2).symm))
    (List.sorted_insertionSort strLeR l1)
    (List.sorted_insertionSort strLeR l2)

/-- C9: Order-independent memoization key.  For medication lists that agree
up to order and letter case (their lower-cased forms are permutations), the
interaction-memoization key `med_cache_key` is identical, and so is the
full-request hash `_generate_request_hash` computes, whenever the remaining
request fields agree — both keys are built from the lower-cased, normalized
names in sorted order, so such requests hit the same cache entries. -/
theorem order_independent_memo_key (digest : RequestData → String)
    (r1 r2 : HealthAnalysisRequest) (l1 l2 : List String)
    (hm1 : r1.current_medications = some l1)
    (hm2 : r2.current_medications = some l2)
    (hperm : (l1.map pyLower).Perm (l2.map pyLower))
    (hc : r1.concern = r2.concern) (hs : r1.symptoms = r2.symptoms)
    (ha : r1.patient_age = r2.patient_age)
    (hg : r1.patient_gender = r2.patient_gender)
    (hh : r1.medical_history = r2.medical_history) :
    medCacheKey l1 = medCacheKey l2 ∧
    generate_request_hash digest r1 = generate_request_hash digest r2 := by
  have hkey : ∀ l : List String,
      l.map normalizeMedForKey = (l.map pyLower).map (pyReplaceChar ' ' '_') := by
    intro l
    rw [List.map_map]
    rfl
  have hhash : ∀ l : List String,
      l.map normalizeForHash = (l.map pyLower).map pyStrip := by
    intro l
    rw [List.map_map]
    rfl
  constructor
  · unfold medCacheKey
    rw [hkey l1, hkey l2,
      pySorted_eq_of_perm (hperm.map (pyReplaceChar ' ' '_'))]
  · unfold generate_request_hash
    have hmed : pySorted (l1.map normalizeForHash) =
        pySorted (l2.map normalizeForHash) := by
      rw [hhash l1, hhash l2]
      exact pySorted_eq_of_perm (hperm.map pyStrip)
    have hcanon : requestDataCanon r1 = requestDataCanon r2 := by
      unfold requestDataCanon
      rw [hc, hs, ha, hg, hh, hm1, hm2]
      simp only [Option.map_some']
      rw [hmed]
    rw [hcanon]

/-- Witness for C9 on concrete requests that differ only in medication order
and letter case. -/
theorem order_independent_memo_key_witness :
    medCacheKey ["Lisinopril", "Metformin"] =
      medCacheKey ["metformin", "lisinopril"] ∧
    generate_request_hash (fun d => d.concern)
      { concern := "dizziness", symptoms := "lightheaded"
      , patient_age := some 61, patient_gender := some "female"
      , medical_history := some ["hypertension"]
      , current_medications := some ["Lisinopril", "Metformin"] } =
    generate_request_hash (fun d => d.concern)
      { concern := "dizziness", symptoms := "lightheaded"
      , patient_age := some 61, patient_gender := some "female"
      , medical_history := some ["hypertension"]
      , current_medications := some ["metformin", "lisinopril"] } := by
  exact order_independent_memo_key (fun d => d.concern) _ _
    ["Lisinopril", "Metformin"] ["metformin", "lisinopril"] rfl rfl
    (List.Perm.swap "metformin" "lisinopril" []) rfl rfl rfl rfl rfl

end InsightMeds
